import Mathlib

/-!
littlest-isomorph: the DOM navigator and the router.

A shallow embedding of `lib/navigators/dom.js` (`DomNavigator`: `navigate`,
`onClick`, `getTitle`, `start`) and of `lib/router.js` (`Router`: `getPath`,
`getRoute`, `getComponent`), followed by theorems about them.

Browser state the code reads and writes (`global.location`, `document.title`,
the registered handlers, the Context object) is passed explicitly as a `World`;
every call the code makes on a collaborator is returned in a call list, oldest
first.
-/

set_option autoImplicit false

namespace LittlestIsomorph

/-! ## JavaScript values -/

/-- Primitive JavaScript values that a route title or an object property can hold. -/
inductive JsVal where
  | undefined
  | null
  | boolean (b : Bool)
  | string (s : String)
  deriving DecidableEq

/-- Conversion `String(v)` of a primitive value. -/
def JsVal.toStr : JsVal → String
  | .undefined => "undefined"
  | .null => "null"
  | .boolean true => "true"
  | .boolean false => "false"
  | .string s => s

/-- Operator `a || b` on two strings: `a` unless it is the empty string. -/
def strOr (a b : String) : String :=
  if a = "" then b else a

/-- Values that are thrown, or that reject a promise. -/
inductive JsError where
  | error (message : String)
  | referenceError (identifier : String)
  | typeError (message : String)
  deriving DecidableEq

/-- A plain object: its own enumerable properties in insertion order. -/
abbrev Obj := List (String × JsVal)

/-- Property read `o[k]`: `none` when `o` has no own property `k`. -/
def Obj.get : Obj → String → Option JsVal
  | [], _ => none
  | (k', v) :: rest, k => if k' = k then some v else Obj.get rest k

/-- Property write `o[k] = v`: replaces the value of an existing key, appends a new one. -/
def Obj.set : Obj → String → JsVal → Obj
  | [], k, v => [(k, v)]
  | (k', v') :: rest, k, v => if k' = k then (k', v) :: rest else (k', v') :: Obj.set rest k v

/-- Key list `Object.keys(o)`. -/
def Obj.keys (o : Obj) : List String :=
  o.map Prod.fst

/-- A location as the code converts it with `String(location)`: an href. -/
abbrev Location := String

/-- Identifier of an action of the Context. -/
abbrev Action := String

/-! ## lib/router.js -/

/-- Reference to an object in the heap. -/
abbrev Ref := Nat

/-- The objects allocated so far; a reference is an index into the list. -/
abbrev Heap := List Obj

/-- Object a reference points to (the empty object for a reference not allocated). -/
def Heap.read (h : Heap) (r : Ref) : Obj :=
  (h[r]?).getD []

/-- Assignment `r[k] = v` on the object that `r` points to. -/
def Heap.write (h : Heap) (r : Ref) (k : String) (v : JsVal) : Heap :=
  h.set r ((h.read r).set k v)

/-- Allocation of the empty object literal: the new heap and the new reference. -/
def Heap.alloc (h : Heap) : Heap × Ref :=
  (h ++ [[]], h.length)

/-- Node function `util._extend(origin, add)`: returns at once when `add` is not an
object (`none`), else copies every own key of `add` onto `origin`, last key first. -/
def utilExtend (h : Heap) (origin : Ref) : Option Ref → Heap
  | none => h
  | some add =>
    (Obj.keys (h.read add)).foldr
      (fun k h' => h'.write origin k (((h'.read add).get k).getD .undefined)) h

/-- Property `config` of a matched route: the route table entry, of which
`getComponent` reads `props` (`none` when it is not an object). -/
structure RouteConfig where
  props : Option Ref
  deriving DecidableEq

/-- Route object returned by the base router, as `getComponent` reads it
(`params` is `none` when it is not an object). -/
structure RouteMatch where
  params : Option Ref
  config : RouteConfig
  deriving DecidableEq

/-- Props that `getComponent` passes to `App`; `route` is the content of `routeInfo`
at the time of the call. -/
structure AppProps where
  path : Option String
  route : Obj
  config : Obj
  deriving DecidableEq

/-- A `Router` instance with what router.js requires from other modules:
`url.parse(String(location)).pathname`, `BaseRouter.prototype.getRoute` (routr), the
`App` component and the `config` module. -/
structure Router (ν : Type) where
  pathname : Location → Option String
  baseGetRoute : Option String → Option Obj → Option RouteMatch
  App : AppProps → ν
  config : Obj

section RouterMethods

variable {ν : Type}

/-- Method `getPath` (router.js:32-34). -/
def Router.getPath (self : Router ν) (location : Location) : Option String :=
  self.pathname location

/-- Method `getRoute` (router.js:43-48). -/
def Router.getRoute (self : Router ν) (location : Location) (options : Option Obj) :
    Option RouteMatch :=
  let pathname := self.getPath location
  self.baseGetRoute pathname options

/-- Method `getComponent` (router.js:57-73): the heap after the call and the value
returned (`none` for `null`). -/
def Router.getComponent (self : Router ν) (h : Heap) (location : Location)
    (options : Option Obj) : Heap × Option ν :=
  match self.getRoute location options with
  | none => (h, none)
  | some route =>
    let a := h.alloc
    let routeInfo := a.2
    let h1 := utilExtend a.1 routeInfo route.config.props
    let h2 := utilExtend h1 routeInfo route.params
    (h2, some (self.App ⟨self.getPath location, h2.read routeInfo, self.config⟩))

/-- Object a property value refers to, read as `util._extend` reads it: no keys when
the value is not an object. -/
def objectAt (h : Heap) : Option Ref → Obj
  | none => []
  | some r => h.read r

end RouterMethods

/-! ## lib/navigators/dom.js -/

/-- Render props built at dom.js:70-73: a reference to the route and the Context
(its state at the time the props are read; `none` when `self.context` is null). -/
structure Props (ρ σ : Type) where
  route : ρ
  context : Option σ
  deriving DecidableEq

/-- Property `title` of a route: a value, or a function of the render props. -/
inductive Title (ρ σ : Type) where
  | value (v : JsVal)
  | function (f : Props ρ σ → JsVal)

/-- Properties of a route object that `navigate` and `getTitle` read. For `body`
and `action`, `none` stands for every falsy value (absent, `undefined`, `null`, `''`). -/
structure RouteObj (ρ σ ν : Type) where
  body : Option (Props ρ σ → ν)
  action : Option Action
  params : Obj
  title : Title ρ σ

/-- Methods that `navigate` calls on `self.router`. `getRoute` and
`getErrorRoute` return a reference to a route object, or `none` for a falsy result. -/
structure RouterOps (ρ : Type) where
  isSameDomain : Location → Location → Bool
  getRoute : Location → Option ρ
  getErrorRoute : Nat → Option ρ

/-- How the awaitable returned by `context.performAction` ends: fulfilled or
rejected, with the state the Context has by then, or never settled. -/
inductive Awaitable (σ : Type) where
  | fulfilled (ctx : σ)
  | rejected (reason : JsError) (ctx : σ)
  | pending
  deriving DecidableEq

/-- Methods that the navigator calls on `self.context`, as functions of the
Context state. -/
structure ContextOps (σ : Type) where
  performAction : Action → Obj → σ → Awaitable σ
  fromObject : Option Obj → σ → σ

/-- A `DomNavigator` instance: its router, the route objects the router's
references denote, and its Context (`none` when `self.context` is null). -/
structure DomNavigator (ρ σ ν : Type) where
  router : RouterOps ρ
  routes : ρ → RouteObj ρ σ ν
  context : Option (ContextOps σ)

/-- The three closures that `start` creates (dom.js:142, 148 and 153). -/
inductive Handler where
  | popstate
  | domContentLoaded
  | click
  deriving DecidableEq

/-- An element or `null`, with its `href` (`none` when falsy) and its `parentElement`. -/
inductive Element where
  | null
  | node (href : Option Location) (parentElement : Element)
  deriving DecidableEq

/-- A DOM event as `onClick` reads it. -/
structure Event where
  type : String
  shiftKey : Bool
  ctrlKey : Bool
  altKey : Bool
  metaKey : Bool
  target : Element
  deriving DecidableEq

/-- Browser and Context state around the navigator. -/
structure World (σ : Type) where
  location : Location
  title : String
  ctx : σ
  payload : Option Obj
  onpopstate : Option Handler
  listeners : List (String × Handler)
  deriving DecidableEq

/-- Calls made on collaborators. -/
inductive Call (ν : Type) where
  | log (location current : Location)
  | performAction (action : Action) (params : Obj)
  | render (view : ν)
  | setTitle (title : String)
  | pushState (location : Location)
  | preventDefault
  | fromObject (payload : Option Obj)
  | setOnpopstate
  | addEventListener (type : String)
  deriving DecidableEq

/-- Result of running a piece of code: the world after it, the calls it made, its value. -/
structure Ran (σ ν α : Type) where
  world : World σ
  calls : List (Call ν)
  value : α
  deriving DecidableEq

/-- What the call `navigate(location, perform)` hands back when it returns:
`undefined` (dom.js:46), a thrown exception, or the promise `when(promise).then(...)`
of dom.js:68 whose callback has not run yet, for the resolved route and the awaitable
of `performAction` (`none` when no action was started). -/
inductive Returned (ρ σ : Type) where
  | undefined
  | threw (e : JsError)
  | promise (route : ρ) (awaited : Option (Awaitable σ))
  deriving DecidableEq

/-- How a whole navigation cycle ends. -/
inductive Outcome where
  | undefined
  | threw (e : JsError)
  | fulfilled
  | rejected (reason : JsError)
  | pending
  deriving DecidableEq

section Navigator

variable {ρ σ ν : Type}

/-- Value of `self.context` as the render props carry it. -/
def contextOf (nav : DomNavigator ρ σ ν) (w : World σ) : Option σ :=
  match nav.context with
  | some _ => some w.ctx
  | none => none

/-- Route resolution of dom.js:49-54: the matched route, else the 404 route. -/
def resolve (nav : DomNavigator ρ σ ν) (location : Location) : Option ρ :=
  match nav.router.getRoute location with
  | some route => some route
  | none => nav.router.getErrorRoute 404

/-- Method `getTitle` (dom.js:119-127). -/
def getTitle (nav : DomNavigator ρ σ ν) (props : Props ρ σ) : String :=
  match (nav.routes props.route).title with
  | .function f => (f props).toStr
  | .value v => v.toStr

/-- Evaluation of `next(new Error(message))` at dom.js:57 and dom.js:61. No scope
around the call binds `next` (not a parameter or local of `navigate`, not a
declaration of the module), so resolving the callee throws a ReferenceError before the
argument is constructed. -/
def callNext (_message : String) : JsError :=
  .referenceError "next"

/-- Synchronous part of `navigate` (dom.js:41-68), up to the point where it returns. -/
def navigateCall (nav : DomNavigator ρ σ ν) (w : World σ) (location : Location)
    (perform : Bool) : Ran σ ν (Returned ρ σ) :=
  if !nav.router.isSameDomain location w.location then
    ⟨w, [.log location w.location], .undefined⟩
  else
    match resolve nav location with
    | none => ⟨w, [], .threw (callNext "No route found, and no 404 page provided.")⟩
    | some route =>
      match (nav.routes route).body with
      | none => ⟨w, [], .threw (callNext "No body component found.")⟩
      | some _ =>
        match perform, (nav.routes route).action, nav.context with
        | true, some action, some context =>
          ⟨w, [.performAction action (nav.routes route).params],
            .promise route (some (context.performAction action (nav.routes route).params w.ctx))⟩
        | _, _, _ => ⟨w, [], .promise route none⟩

/-- Callback passed to `then` (dom.js:69-79): it throws a TypeError when `route.body`
is not callable. -/
def thenCallback (nav : DomNavigator ρ σ ν) (w : World σ) (route : ρ)
    (location : Location) : Ran σ ν (Except JsError Unit) :=
  let props : Props ρ σ := ⟨route, contextOf nav w⟩
  match (nav.routes route).body with
  | none => ⟨w, [], .error (.typeError "route.body is not a function")⟩
  | some body =>
    let title := strOr (getTitle nav props) w.title
    ⟨{ w with title := title, location := location },
      [.render (body props), .setTitle title, .pushState location], .ok ()⟩

/-- Promise `when(promise).then(callback)` of dom.js:68 once the awaited value has
settled: `when(undefined)` is fulfilled at once; a rejected awaitable skips the
callback and rejects the result with the same reason; a pending one never runs it. -/
def settle (nav : DomNavigator ρ σ ν) (w : World σ) (route : ρ) (location : Location) :
    Option (Awaitable σ) → Ran σ ν Outcome
  | none =>
    let r := thenCallback nav w route location
    ⟨r.world, r.calls, match r.value with | .ok _ => .fulfilled | .error e => .rejected e⟩
  | some (.fulfilled ctx) =>
    let r := thenCallback nav { w with ctx := ctx } route location
    ⟨r.world, r.calls, match r.value with | .ok _ => .fulfilled | .error e => .rejected e⟩
  | some (.rejected reason ctx) => ⟨{ w with ctx := ctx }, [], .rejected reason⟩
  | some .pending => ⟨w, [], .pending⟩

/-- One whole navigation cycle: the call `navigate(location, perform)` followed by the
settlement of the promise it returned. -/
def navigate (nav : DomNavigator ρ σ ν) (w : World σ) (location : Location)
    (perform : Bool) : Ran σ ν Outcome :=
  let r := navigateCall nav w location perform
  match r.value with
  | .undefined => ⟨r.world, r.calls, .undefined⟩
  | .threw e => ⟨r.world, r.calls, .threw e⟩
  | .promise route awaited =>
    let s := settle nav r.world route location awaited
    ⟨s.world, r.calls ++ s.calls, s.value⟩

/-- Inner function `search` of `onClick` (dom.js:93-103): the `href` of the nearest
element, from `element` upward, that has one. -/
def search : Element → Option Location
  | .null => none
  | .node (some href) _ => some href
  | .node none parentElement => search parentElement

/-- A call of `self.navigate` made by a handler: its arguments and what it returned. -/
structure Invocation (ρ σ : Type) where
  location : Location
  perform : Bool
  returned : Returned ρ σ
  deriving DecidableEq

/-- Method `onClick` (dom.js:86-112), up to its return. The value is the call of
`self.navigate` it made, if any. -/
def onClick (nav : DomNavigator ρ σ ν) (w : World σ) (event : Event) :
    Ran σ ν (Option (Invocation ρ σ)) :=
  if event.shiftKey || event.ctrlKey || event.altKey || event.metaKey then
    ⟨w, [], none⟩
  else
    match search event.target with
    | none => ⟨w, [], none⟩
    | some href =>
      let r := navigateCall nav w href true
      ⟨r.world, .preventDefault :: r.calls, some ⟨href, true, r.value⟩⟩

/-- Method `start` (dom.js:132-156). -/
def start (nav : DomNavigator ρ σ ν) (w : World σ) : Ran σ ν Unit :=
  let r1 : World σ × List (Call ν) :=
    match nav.context with
    | some context =>
      ({ w with ctx := context.fromObject w.payload w.ctx }, [.fromObject w.payload])
    | none => (w, [])
  let w2 : World σ := { r1.1 with onpopstate := some .popstate }
  let w3 : World σ :=
    { w2 with listeners := w2.listeners ++ [("DOMContentLoaded", .domContentLoaded)] }
  let w4 : World σ := { w3 with listeners := w3.listeners ++ [("click", .click)] }
  ⟨w4, r1.2 ++ [.setOnpopstate, .addEventListener "DOMContentLoaded", .addEventListener "click"], ()⟩

/-- Body of one of the closures of `start`, run on an event, up to its return. -/
def runHandler (nav : DomNavigator ρ σ ν) (w : World σ) (event : Event) :
    Handler → Ran σ ν (Option (Invocation ρ σ))
  | .popstate =>
    let r := navigateCall nav w w.location true
    ⟨r.world, r.calls, some ⟨w.location, true, r.value⟩⟩
  | .domContentLoaded =>
    let r := navigateCall nav w w.location false
    ⟨r.world, r.calls, some ⟨w.location, false, r.value⟩⟩
  | .click => onClick nav w event

/-- Handlers in turn on one event; the value lists the `navigate` calls they made. An
exception thrown by one handler does not stop the following ones. -/
def runHandlers (nav : DomNavigator ρ σ ν) (event : Event) :
    List Handler → World σ → Ran σ ν (List (Invocation ρ σ))
  | [], w => ⟨w, [], []⟩
  | h :: rest, w =>
    let r := runHandler nav w event h
    let s := runHandlers nav event rest r.world
    ⟨s.world, r.calls ++ s.calls, r.value.toList ++ s.value⟩

/-- Handlers the browser runs for an event: the `onpopstate` property for a popstate
event, then the listeners added for the event type, in registration order. -/
def handlersFor (w : World σ) (event : Event) : List Handler :=
  (if event.type = "popstate" then w.onpopstate.toList else []) ++
    (w.listeners.filter (fun l => l.1 = event.type)).map Prod.snd

/-- Dispatch of one event until every handler has returned. -/
def dispatch (nav : DomNavigator ρ σ ν) (w : World σ) (event : Event) :
    Ran σ ν (List (Invocation ρ σ)) :=
  runHandlers nav event (handlersFor w event) w

/-- World after `n` successive calls of `start`. -/
def startTimes (nav : DomNavigator ρ σ ν) : Nat → World σ → World σ
  | 0, w => w
  | n + 1, w => (start nav (startTimes nav n w)).world

/-- Awaitable of the action that `navigate` starts for `route` (dom.js:64-66), `none`
when it starts no action. -/
def startedAction (nav : DomNavigator ρ σ ν) (w : World σ) (route : ρ) (perform : Bool) :
    Option (Awaitable σ) :=
  match perform, (nav.routes route).action, nav.context with
  | true, some action, some context =>
    some (context.performAction action (nav.routes route).params w.ctx)
  | _, _, _ => none

/-- World in which the `then` callback of a cycle runs: the Context has the state in
which the fulfilled action left it, when an action was started. -/
def worldAtCallback (w : World σ) : Option (Awaitable σ) → World σ
  | some (.fulfilled ctx) => { w with ctx := ctx }
  | _ => w

/-- Value of the title of a route for given props, before `String` is applied: the
static value, or the result of the title function. -/
def titleValue (nav : DomNavigator ρ σ ν) (props : Props ρ σ) : JsVal :=
  match (nav.routes props.route).title with
  | .function f => f props
  | .value v => v

/-- Values of `href` along the chain from an element upward through `parentElement`,
nearest first; `none` where the element carries no href. -/
def chain : Element → List (Option Location)
  | .null => []
  | .node href parentElement => href :: chain parentElement

/-- Number of `navigate` calls that one run of `onClick` makes for an event. -/
def clickNavigations (event : Event) : Nat :=
  if event.shiftKey || event.ctrlKey || event.altKey || event.metaKey then 0
  else match search event.target with
    | none => 0
    | some _ => 1

end Navigator

/-! ## Example configuration

Route references are numbers, the Context state is a counter, and a view is the pair
of the route and the Context state it was built from. -/

/-- Example route objects: 0 a page without action, 1 a page with the action `load`,
2 a not-found page with the action `load`, 3 a page whose title is absent. -/
def exampleRoutes : Nat → RouteObj Nat Nat (Nat × Option Nat)
  | 0 => ⟨some (fun p => (p.route, p.context)), none, [], .value (.string "Home")⟩
  | 1 => ⟨some (fun p => (p.route, p.context)), some "load", [("id", .string "42")],
      .function (fun _ => .string "User")⟩
  | 2 => ⟨some (fun p => (p.route, p.context)), some "load", [], .value (.string "Not found")⟩
  | _ => ⟨some (fun p => (p.route, p.context)), none, [], .value .undefined⟩

/-- Example router: same origin unless the location is `http://other.example/`;
`/` and `http://app.example/` are route 0, `/users/42` route 1, `/untitled` route 3; no
404 route. -/
def exampleRouter : RouterOps Nat where
  isSameDomain := fun location _ => location != "http://other.example/"
  getRoute := fun location =>
    if location = "/" then some 0
    else if location = "http://app.example/" then some 0
    else if location = "/users/42" then some 1
    else if location = "/untitled" then some 3
    else none
  getErrorRoute := fun _ => none

/-- Example router with route 2 as the 404 route. -/
def exampleRouter404 : RouterOps Nat where
  isSameDomain := exampleRouter.isSameDomain
  getRoute := exampleRouter.getRoute
  getErrorRoute := fun status => if status = 404 then some 2 else none

/-- Example Context: `load` adds one to the counter and fulfils; rehydration sets the
counter to 5 when a payload is present. -/
def exampleContext : ContextOps Nat where
  performAction := fun _ _ ctx => .fulfilled (ctx + 1)
  fromObject := fun payload ctx => match payload with | some _ => 5 | none => ctx

/-- Example Context whose actions all reject. -/
def failingContext : ContextOps Nat where
  performAction := fun _ _ ctx => .rejected (.error "load failed") ctx
  fromObject := fun _ ctx => ctx

/-- Example navigator without a 404 route. -/
def exampleNav : DomNavigator Nat Nat (Nat × Option Nat) :=
  ⟨exampleRouter, exampleRoutes, some exampleContext⟩

/-- Example navigator with a 404 route and a Context whose actions reject. -/
def failingNav : DomNavigator Nat Nat (Nat × Option Nat) :=
  ⟨exampleRouter404, exampleRoutes, some failingContext⟩

/-- Example world: a freshly loaded page with a rehydration payload. -/
def exampleWorld : World Nat :=
  ⟨"http://app.example/", "Welcome", 0, some [("count", .string "5")], none, []⟩

/-- A click without modifier key on a `span` inside an anchor to `href`. -/
def clickOn (href : Location) : Event :=
  ⟨"click", false, false, false, false, .node none (.node (some href) (.node none .null))⟩

/-- A popstate event. -/
def popstateEvent : Event :=
  ⟨"popstate", false, false, false, false, .null⟩

/-- A DOMContentLoaded event. -/
def readyEvent : Event :=
  ⟨"DOMContentLoaded", false, false, false, false, .null⟩

/-- Example heap: object 0 is the declared props of the `/users/:id` route, object 1 the
path parameters of `/users/42`; both have a key `id`. -/
def exampleHeap : Heap :=
  [[("section", .string "profile"), ("id", .string "0")], [("id", .string "42")]]

/-- Example `Router`: the pathname is the location itself, `/users/42` matches the
route whose props are object 0 with the parameters of object 1, and `App` returns its
props. -/
def exampleRouterJs : Router AppProps where
  pathname := fun location => some location
  baseGetRoute := fun pathname _ =>
    if pathname = some "/users/42" then some ⟨some 1, ⟨some 0⟩⟩ else none
  App := fun props => props
  config := [("env", .string "test")]

/-! ## Theorems -/

section NavigatorTheorems

variable {ρ σ ν : Type}

/-- A location of another origin: `navigate` only logs and returns `undefined`. -/
theorem navigate_other_domain (nav : DomNavigator ρ σ ν) (w : World σ) (location : Location)
    (perform : Bool) (hother : nav.router.isSameDomain location w.location = false) :
    navigate nav w location perform = ⟨w, [.log location w.location], .undefined⟩ := by
  simp [navigate, navigateCall, hother]

/-- No route and no 404 route: `navigate` throws the ReferenceError of `next` and
calls nothing. -/
theorem navigate_unresolved (nav : DomNavigator ρ σ ν) (w : World σ) (location : Location)
    (perform : Bool) (hsame : nav.router.isSameDomain location w.location = true)
    (hnone : nav.router.getRoute location = none)
    (h404 : nav.router.getErrorRoute 404 = none) :
    navigate nav w location perform = ⟨w, [], .threw (.referenceError "next")⟩ := by
  simp [navigate, navigateCall, resolve, callNext, hsame, hnone, h404]

/-- C1, evaluated on the code: for `/missing`, which is same-origin, matches no route
and has no 404 route, `navigate` makes no call and changes nothing, but what it throws
is the ReferenceError raised by the unbound name `next`, not the Error with the message
`No route found, and no 404 page provided.`. -/
theorem navigate_missing_throws_reference_error :
    exampleNav.router.isSameDomain "/missing" exampleWorld.location = true ∧
    exampleNav.router.getRoute "/missing" = none ∧
    exampleNav.router.getErrorRoute 404 = none ∧
    navigate exampleNav exampleWorld "/missing" true
      = ⟨exampleWorld, [], .threw (.referenceError "next")⟩ ∧
    navigate exampleNav exampleWorld "/missing" false
      = ⟨exampleWorld, [], .threw (.referenceError "next")⟩ ∧
    (navigate exampleNav exampleWorld "/missing" true).value
      ≠ .threw (.error "No route found, and no 404 page provided.") := by
  refine ⟨by decide, by decide, rfl, ?_, ?_, ?_⟩
  · exact navigate_unresolved _ _ _ _ (by decide) (by decide) rfl
  · exact navigate_unresolved _ _ _ _ (by decide) (by decide) rfl
  · rw [navigate_unresolved _ _ _ _ (by decide) (by decide) rfl]
    decide

/-- C4, evaluated on the code: a click without modifier key inside an anchor to another
origin. `navigate` itself only logs and returns, but `onClick` has called
`event.preventDefault` before it. -/
theorem onClick_other_domain_prevents_default :
    exampleNav.router.isSameDomain "http://other.example/" exampleWorld.location = false ∧
    navigate exampleNav exampleWorld "http://other.example/" true
      = ⟨exampleWorld, [.log "http://other.example/" "http://app.example/"], .undefined⟩ ∧
    onClick exampleNav exampleWorld (clickOn "http://other.example/")
      = ⟨exampleWorld,
          [.preventDefault, .log "http://other.example/" "http://app.example/"],
          some ⟨"http://other.example/", true, .undefined⟩⟩ := by
  refine ⟨by decide, ?_, ?_⟩
  · exact navigate_other_domain _ _ _ _ (by decide)
  · have h : exampleNav.router.isSameDomain "http://other.example/" exampleWorld.location
        = false := by decide
    simp [onClick, clickOn, search, navigateCall, h]
    rfl

/-- What `navigate` returns for a same-origin location whose route has a body. -/
theorem navigateCall_resolved (nav : DomNavigator ρ σ ν) (w : World σ) (location : Location)
    (perform : Bool) (route : ρ) (body : Props ρ σ → ν)
    (hsame : nav.router.isSameDomain location w.location = true)
    (hroute : resolve nav location = some route)
    (hbody : (nav.routes route).body = some body) :
    (navigateCall nav w location perform).world = w ∧
    (navigateCall nav w location perform).value
      = .promise route (startedAction nav w route perform) := by
  cases perform <;> cases h1 : (nav.routes route).action <;> cases h2 : nav.context <;>
    simp [navigateCall, startedAction, hsame, hroute, hbody, h1, h2]

/-- C2: in a cycle that executes an action (same-origin location, route with a body and
an action, `perform` true, Context configured), `navigate` has only called
`performAction` when it returns, with the world unchanged; render, title update and
history push follow, in this order, once the awaitable is fulfilled; they never happen
while it is pending; and when it rejects none of them happens, title and location keep
their values, and the promise returned by `navigate` rejects with the same reason. -/
theorem navigate_action_then_render (nav : DomNavigator ρ σ ν) (w : World σ)
    (location : Location) (route : ρ) (body : Props ρ σ → ν) (action : Action)
    (context : ContextOps σ)
    (hsame : nav.router.isSameDomain location w.location = true)
    (hroute : resolve nav location = some route)
    (hbody : (nav.routes route).body = some body)
    (haction : (nav.routes route).action = some action)
    (hctx : nav.context = some context) :
    navigateCall nav w location true
      = ⟨w, [.performAction action (nav.routes route).params],
          .promise route
            (some (context.performAction action (nav.routes route).params w.ctx))⟩ ∧
    (∀ ctx, context.performAction action (nav.routes route).params w.ctx = .fulfilled ctx →
      navigate nav w location true
        = ⟨{ w with
              ctx := ctx
              title := strOr (getTitle nav ⟨route, some ctx⟩) w.title
              location := location },
            [.performAction action (nav.routes route).params,
              .render (body ⟨route, some ctx⟩),
              .setTitle (strOr (getTitle nav ⟨route, some ctx⟩) w.title),
              .pushState location],
            .fulfilled⟩) ∧
    (∀ reason ctx,
      context.performAction action (nav.routes route).params w.ctx = .rejected reason ctx →
      navigate nav w location true
        = ⟨{ w with ctx := ctx }, [.performAction action (nav.routes route).params],
            .rejected reason⟩) ∧
    (context.performAction action (nav.routes route).params w.ctx = .pending →
      navigate nav w location true
        = ⟨w, [.performAction action (nav.routes route).params], .pending⟩) := by
  have hcall : navigateCall nav w location true
      = ⟨w, [.performAction action (nav.routes route).params],
          .promise route
            (some (context.performAction action (nav.routes route).params w.ctx))⟩ := by
    simp [navigateCall, hsame, hroute, hbody, haction, hctx]
  refine ⟨hcall, ?_, ?_, ?_⟩
  · intro ctx h
    simp [navigate, hcall, h, settle, thenCallback, hbody, contextOf, hctx]
  · intro reason ctx h
    simp [navigate, hcall, h, settle]
  · intro h
    simp [navigate, hcall, h, settle]

/-- Witness of C2: `/users/42` in the example configuration, whose action fulfils. -/
theorem navigate_action_then_render_witness :
    navigate exampleNav exampleWorld "/users/42" true
      = ⟨{ exampleWorld with ctx := 1, title := "User", location := "/users/42" },
          [.performAction "load" [("id", .string "42")], .render (1, some 1),
            .setTitle "User", .pushState "/users/42"],
          .fulfilled⟩ :=
  (navigate_action_then_render exampleNav exampleWorld "/users/42" 1
    (fun p => (p.route, p.context)) "load" exampleContext (by decide) (by decide) rfl rfl
    rfl).2.1 1 rfl

/-- C3 as stated fails: `/missing` is same-origin and matches no route, the 404 route
has a body, yet with `perform` true its action is executed, the awaitable rejects, and
`navigate` returns a rejected promise without having rendered anything. -/
theorem navigate_fallback_can_reject :
    failingNav.router.isSameDomain "/missing" exampleWorld.location = true ∧
    failingNav.router.getRoute "/missing" = none ∧
    failingNav.router.getErrorRoute 404 = some 2 ∧
    ((failingNav.routes 2).body).isSome = true ∧
    navigate failingNav exampleWorld "/missing" true
      = ⟨exampleWorld, [.performAction "load" []], .rejected (.error "load failed")⟩ := by
  refine ⟨by decide, by decide, rfl, rfl, ?_⟩
  decide

/-- C3, amended: for a same-origin location that matches no route while the 404 route
has a body, and provided the action that `navigate` starts, if it starts one, is
fulfilled, the cycle is fulfilled: after the calls made before `navigate` returned it
renders `fallback.body` applied to the props of the fallback route and the Context,
sets the title and pushes the location, and nothing else. -/
theorem navigate_fallback_renders (nav : DomNavigator ρ σ ν) (w : World σ)
    (location : Location) (perform : Bool) (fallback : ρ) (body : Props ρ σ → ν)
    (hsame : nav.router.isSameDomain location w.location = true)
    (hnone : nav.router.getRoute location = none)
    (h404 : nav.router.getErrorRoute 404 = some fallback)
    (hbody : (nav.routes fallback).body = some body)
    (hok : ∀ awaitable, startedAction nav w fallback perform = some awaitable →
      ∃ ctx, awaitable = .fulfilled ctx) :
    navigate nav w location perform
      = ⟨{ worldAtCallback w (startedAction nav w fallback perform) with
            title := strOr (getTitle nav ⟨fallback,
              contextOf nav (worldAtCallback w (startedAction nav w fallback perform))⟩) w.title
            location := location },
          (navigateCall nav w location perform).calls ++
            [.render (body ⟨fallback,
                contextOf nav (worldAtCallback w (startedAction nav w fallback perform))⟩),
              .setTitle (strOr (getTitle nav ⟨fallback,
                contextOf nav (worldAtCallback w (startedAction nav w fallback perform))⟩)
                w.title),
              .pushState location],
          .fulfilled⟩ := by
  have hroute : resolve nav location = some fallback := by simp [resolve, hnone, h404]
  obtain ⟨hw, hv⟩ := navigateCall_resolved nav w location perform fallback body hsame hroute hbody
  cases hs : startedAction nav w fallback perform with
  | none =>
    rw [hs] at hv
    simp [navigate, hv, hw, settle, thenCallback, hbody, worldAtCallback]
  | some awaitable =>
    obtain ⟨ctx, rfl⟩ := hok awaitable hs
    rw [hs] at hv
    simp [navigate, hv, hw, settle, thenCallback, hbody, worldAtCallback]

/-- Witness of the amended C3: with the Context whose actions reject, the ready-time
navigation to `/missing` (no action started) renders the 404 route. -/
theorem navigate_fallback_renders_witness :
    navigate failingNav exampleWorld "/missing" false
      = ⟨{ exampleWorld with title := "Not found", location := "/missing" },
          [.render (2, some 0), .setTitle "Not found", .pushState "/missing"],
          .fulfilled⟩ := by
  have h := navigate_fallback_renders failingNav exampleWorld "/missing" false 2
    (fun p => (p.route, p.context)) (by decide) (by decide) rfl rfl
    (fun awaitable h => by simp [startedAction] at h)
  rw [h]
  decide

/-- Method `getTitle` is `String` applied to the title value. -/
theorem getTitle_eq_toStr (nav : DomNavigator ρ σ ν) (props : Props ρ σ) :
    getTitle nav props = (titleValue nav props).toStr := by
  unfold getTitle titleValue
  split <;> simp_all

/-- C8: when the resolved route declares no action, `navigate(location, true)` and
`navigate(location, false)` from the same world are the same cycle (same calls in the
same order, same resulting world, same outcome), and neither calls `performAction`. -/
theorem navigate_perform_irrelevant (nav : DomNavigator ρ σ ν) (w : World σ)
    (location : Location) (route : ρ) (hroute : resolve nav location = some route)
    (haction : (nav.routes route).action = none) :
    navigate nav w location true = navigate nav w location false ∧
    ∀ perform action params,
      Call.performAction action params ∉ (navigate nav w location perform).calls := by
  have hcall : ∀ perform, navigateCall nav w location perform
      = navigateCall nav w location false := by
    intro perform
    cases perform <;> simp [navigateCall, hroute, haction]
  have hnav : ∀ perform, navigate nav w location perform = navigate nav w location false := by
    intro perform
    simp only [navigate, hcall perform]
  refine ⟨hnav true, ?_⟩
  intro perform action params
  rw [hnav perform]
  by_cases hsame : nav.router.isSameDomain location w.location = true
  · cases hbody : (nav.routes route).body with
    | none => simp [navigate, navigateCall, hsame, hroute, hbody]
    | some body =>
      simp [navigate, navigateCall, hsame, hroute, hbody, settle, thenCallback]
  · simp only [Bool.not_eq_true] at hsame
    simp [navigate, navigateCall, hsame]

/-- Witness of C8: `/`, whose route declares no action. -/
theorem navigate_perform_irrelevant_witness :
    navigate exampleNav exampleWorld "/" true = navigate exampleNav exampleWorld "/" false ∧
    ∀ perform action params,
      Call.performAction action params
        ∉ (navigate exampleNav exampleWorld "/" perform).calls :=
  navigate_perform_irrelevant exampleNav exampleWorld "/" 0 (by decide) rfl

/-- The search finds nothing exactly when no element of the chain carries an href. -/
theorem search_eq_none_iff (element : Element) :
    search element = none ↔ ∀ x ∈ chain element, x = none := by
  induction element with
  | null => simp [search, chain]
  | node href parentElement ih =>
    cases href with
    | none => simp [search, chain, ih]
    | some a => simp [search, chain]

/-- The search returns the href of the nearest element of the chain that carries one. -/
theorem search_eq_some_iff (element : Element) (href : Location) :
    search element = some href ↔
      ∃ k : Nat, (chain element)[k]? = some (some href) ∧
        ∀ j : Nat, j < k → (chain element)[j]? = some none := by
  induction element with
  | null => simp [search, chain]
  | node h parentElement ih =>
    cases h with
    | none =>
      simp only [search, chain, ih]
      constructor
      · rintro ⟨k, hk, hlt⟩
        refine ⟨k + 1, by simpa using hk, ?_⟩
        intro j hj
        cases j with
        | zero => simp
        | succ j => simpa using hlt j (by omega)
      · rintro ⟨k, hk, hlt⟩
        cases k with
        | zero => simp at hk
        | succ k =>
          refine ⟨k, by simpa using hk, ?_⟩
          intro j hj
          simpa using hlt (j + 1) (by omega)
    | some a =>
      simp only [search, chain]
      constructor
      · intro h
        refine ⟨0, by simpa using h, ?_⟩
        intro j hj
        omega
      · rintro ⟨k, hk, hlt⟩
        cases k with
        | zero => simpa using hk
        | succ k =>
          have h0 := hlt 0 (by omega)
          simp at h0

/-- Calls made before `navigate` returns never include `event.preventDefault`, and the
world is the one it was called in. -/
theorem navigateCall_frame (nav : DomNavigator ρ σ ν) (w : World σ) (location : Location)
    (perform : Bool) :
    (navigateCall nav w location perform).world = w ∧
    Call.preventDefault ∉ (navigateCall nav w location perform).calls := by
  unfold navigateCall
  split
  · simp
  · split
    · simp
    · split
      · simp
      · split <;> simp

/-- C10: with no modifier key held and an element of the chain from `event.target`
upward carrying an href, the nearest one carrying `href`, `onClick` calls
`event.preventDefault` once and then `navigate(href, true)` once, and nothing else;
with a modifier key held, or no element of the chain carrying an href, it calls
neither. The search is a total function of the (finite) chain. -/
theorem onClick_navigates_iff (nav : DomNavigator ρ σ ν) (w : World σ) (event : Event) :
    (∀ (k : Nat) (href : Location),
      (event.shiftKey || event.ctrlKey || event.altKey || event.metaKey) = false →
      (chain event.target)[k]? = some (some href) →
      (∀ j : Nat, j < k → (chain event.target)[j]? = some none) →
      onClick nav w event
        = ⟨w, .preventDefault :: (navigateCall nav w href true).calls,
            some ⟨href, true, (navigateCall nav w href true).value⟩⟩ ∧
      Call.preventDefault ∉ (navigateCall nav w href true).calls) ∧
    ((event.shiftKey || event.ctrlKey || event.altKey || event.metaKey) = true ∨
        (∀ x ∈ chain event.target, x = none) →
      onClick nav w event = ⟨w, [], none⟩) := by
  constructor
  · intro k href hmod hk hlt
    have hs : search event.target = some href :=
      (search_eq_some_iff event.target href).2 ⟨k, hk, hlt⟩
    obtain ⟨hw, hp⟩ := navigateCall_frame nav w href true
    refine ⟨?_, hp⟩
    unfold onClick
    rw [hmod]
    simp [hs, hw]
  · intro h
    unfold onClick
    cases hmod : (event.shiftKey || event.ctrlKey || event.altKey || event.metaKey) with
    | true => simp
    | false =>
      rcases h with h | h
      · rw [hmod] at h
        exact absurd h (by decide)
      · have hs := (search_eq_none_iff event.target).2 h
        simp [hs]

/-- Witness of C10: a click on a `span` inside an anchor to `/users/42`. -/
theorem onClick_navigates_iff_witness :
    onClick exampleNav exampleWorld (clickOn "/users/42")
      = ⟨exampleWorld, [.preventDefault, .performAction "load" [("id", .string "42")]],
          some ⟨"/users/42", true, .promise 1 (some (.fulfilled 1))⟩⟩ := by
  have h := ((onClick_navigates_iff exampleNav exampleWorld (clickOn "/users/42")).1 1
    "/users/42" rfl rfl (fun j hj => by
      have hj0 : j = 0 := by omega
      subst hj0
      rfl)).1
  rw [h]
  decide

/-- The count of `navigate` calls of `onClick` depends on the event only. -/
theorem onClick_count (nav : DomNavigator ρ σ ν) (w : World σ) (event : Event) :
    (onClick nav w event).value.toList.length = clickNavigations event := by
  unfold onClick clickNavigations
  split
  · simp
  · split <;> simp

/-- Running `n` copies of the click closure makes `n` times the calls of one. -/
theorem runHandlers_click_count (nav : DomNavigator ρ σ ν) (event : Event) (n : Nat) :
    ∀ w : World σ, (runHandlers nav event (List.replicate n Handler.click) w).value.length
      = n * clickNavigations event := by
  induction n with
  | zero => intro w; simp [runHandlers]
  | succ n ih =>
    intro w
    simp only [List.replicate_succ, runHandlers, List.length_append, ih, runHandler,
      onClick_count]
    ring

/-- Running `n` copies of the DOMContentLoaded closure makes `n` calls of `navigate`. -/
theorem runHandlers_ready_count (nav : DomNavigator ρ σ ν) (event : Event) (n : Nat) :
    ∀ w : World σ,
      (runHandlers nav event (List.replicate n Handler.domContentLoaded) w).value.length
        = n := by
  induction n with
  | zero => intro w; simp [runHandlers]
  | succ n ih =>
    intro w
    simp only [List.replicate_succ, runHandlers, List.length_append, ih, runHandler,
      Option.toList, List.length_singleton]
    omega

/-- What `start` leaves in the world besides the Context state. -/
theorem start_world (nav : DomNavigator ρ σ ν) (w : World σ) :
    (start nav w).world.listeners
      = w.listeners ++ [("DOMContentLoaded", Handler.domContentLoaded), ("click", Handler.click)] ∧
    (start nav w).world.onpopstate = some Handler.popstate ∧
    (start nav w).world.location = w.location := by
  unfold start
  cases nav.context <;> simp

/-- Click listeners registered after `n` calls of `start` on a page without listeners. -/
theorem startTimes_click_listeners (nav : DomNavigator ρ σ ν) (w : World σ)
    (hfresh : w.listeners = []) (n : Nat) :
    ((startTimes nav n w).listeners.filter (fun l => l.1 = "click")).map Prod.snd
      = List.replicate n Handler.click := by
  induction n with
  | zero => simp [startTimes, hfresh]
  | succ n ih =>
    simp only [startTimes, (start_world nav _).1, List.filter_append, List.map_append, ih]
    simp [List.replicate_succ']

/-- DOMContentLoaded listeners registered after `n` calls of `start` on a page without
listeners. -/
theorem startTimes_ready_listeners (nav : DomNavigator ρ σ ν) (w : World σ)
    (hfresh : w.listeners = []) (n : Nat) :
    ((startTimes nav n w).listeners.filter (fun l => l.1 = "DOMContentLoaded")).map Prod.snd
      = List.replicate n Handler.domContentLoaded := by
  induction n with
  | zero => simp [startTimes, hfresh]
  | succ n ih =>
    simp only [startTimes, (start_world nav _).1, List.filter_append, List.map_append, ih]
    simp [List.replicate_succ']

/-- No popstate listener is ever added by `start`. -/
theorem startTimes_popstate_listeners (nav : DomNavigator ρ σ ν) (w : World σ)
    (hfresh : w.listeners = []) (n : Nat) :
    (startTimes nav n w).listeners.filter (fun l => l.1 = "popstate") = [] := by
  induction n with
  | zero => simp [startTimes, hfresh]
  | succ n ih =>
    simp only [startTimes, (start_world nav _).1, List.filter_append, ih]
    simp

/-- C6 as stated fails: after two calls of `start` on a fresh page, one click on a link
to `/` runs `navigate` twice and one DOMContentLoaded event runs it twice, against
once each after a single call of `start`. -/
theorem second_start_doubles_navigation :
    (dispatch exampleNav (startTimes exampleNav 1 exampleWorld) (clickOn "/")).value.length = 1 ∧
    (dispatch exampleNav (startTimes exampleNav 2 exampleWorld) (clickOn "/")).value.length = 2 ∧
    (dispatch exampleNav (startTimes exampleNav 1 exampleWorld) readyEvent).value.length = 1 ∧
    (dispatch exampleNav (startTimes exampleNav 2 exampleWorld) readyEvent).value.length = 2 := by
  decide

/-- Count of the `navigate` calls of a popstate event after at least one `start`. -/
theorem dispatch_popstate_count (nav : DomNavigator ρ σ ν) (w : World σ) (n : Nat)
    (hfresh : w.listeners = []) (hn : 1 ≤ n) (event : Event)
    (htype : event.type = "popstate") :
    (dispatch nav (startTimes nav n w) event).value.length = 1 := by
  obtain ⟨m, rfl⟩ : ∃ m, n = m + 1 := ⟨n - 1, by omega⟩
  have hl := startTimes_popstate_listeners nav w hfresh (m + 1)
  have hp : (startTimes nav (m + 1) w).onpopstate = some Handler.popstate := by
    simp [startTimes, (start_world nav _).2.1]
  simp only [dispatch, handlersFor, htype] at hl ⊢
  simp [hl, hp, runHandlers, runHandler]

/-- Count of the `navigate` calls of a DOMContentLoaded event after `n` calls of `start`. -/
theorem dispatch_ready_count (nav : DomNavigator ρ σ ν) (w : World σ) (n : Nat)
    (hfresh : w.listeners = []) (event : Event) (htype : event.type = "DOMContentLoaded") :
    (dispatch nav (startTimes nav n w) event).value.length = n := by
  have hl := startTimes_ready_listeners nav w hfresh n
  simp only [dispatch, handlersFor, htype] at hl ⊢
  rw [hl]
  simpa using runHandlers_ready_count nav event n (startTimes nav n w)

/-- Count of the `navigate` calls of a click event after `n` calls of `start`. -/
theorem dispatch_click_count (nav : DomNavigator ρ σ ν) (w : World σ) (n : Nat)
    (hfresh : w.listeners = []) (event : Event) (htype : event.type = "click") :
    (dispatch nav (startTimes nav n w) event).value.length = n * clickNavigations event := by
  have hl := startTimes_click_listeners nav w hfresh n
  simp only [dispatch, handlersFor, htype] at hl ⊢
  rw [hl]
  simpa using runHandlers_click_count nav event n (startTimes nav n w)

/-- One run of `onClick` calls `navigate` at most once. -/
theorem clickNavigations_le_one (event : Event) : clickNavigations event ≤ 1 := by
  unfold clickNavigations
  split
  · omega
  · split <;> omega

/-- C6, amended: on a page without listeners, after `n ≥ 1` calls of `start` a popstate
event runs `navigate` once (the `onpopstate` property is overwritten), a
DOMContentLoaded event runs it `n` times, and a click event runs it `n` times as often
as after a single call of `start`, where it runs at most once: each call of `start`
adds one more DOMContentLoaded listener and one more click listener. -/
theorem dispatch_after_starts (nav : DomNavigator ρ σ ν) (w : World σ) (n : Nat)
    (hfresh : w.listeners = []) (hn : 1 ≤ n) :
    (∀ event : Event, event.type = "popstate" →
      (dispatch nav (startTimes nav n w) event).value.length = 1) ∧
    (∀ event : Event, event.type = "DOMContentLoaded" →
      (dispatch nav (startTimes nav n w) event).value.length = n) ∧
    (∀ event : Event, event.type = "click" →
      (dispatch nav (startTimes nav n w) event).value.length
        = n * (dispatch nav (startTimes nav 1 w) event).value.length ∧
      (dispatch nav (startTimes nav 1 w) event).value.length ≤ 1) := by
  refine ⟨?_, ?_, ?_⟩
  · intro event htype
    exact dispatch_popstate_count nav w n hfresh hn event htype
  · intro event htype
    exact dispatch_ready_count nav w n hfresh event htype
  · intro event htype
    rw [dispatch_click_count nav w n hfresh event htype,
      dispatch_click_count nav w 1 hfresh event htype, Nat.one_mul]
    exact ⟨rfl, clickNavigations_le_one event⟩

/-- Witness of the amended C6: three calls of `start`, then a click on a link to `/`. -/
theorem dispatch_after_starts_witness :
    (dispatch exampleNav (startTimes exampleNav 3 exampleWorld) popstateEvent).value.length = 1 ∧
    (dispatch exampleNav (startTimes exampleNav 3 exampleWorld) readyEvent).value.length = 3 ∧
    (dispatch exampleNav (startTimes exampleNav 3 exampleWorld) (clickOn "/")).value.length
      = 3 * (dispatch exampleNav (startTimes exampleNav 1 exampleWorld) (clickOn "/")).value.length :=
  have h := dispatch_after_starts exampleNav exampleWorld 3 rfl (by decide)
  ⟨h.1 popstateEvent rfl, h.2.1 readyEvent rfl, (h.2.2 (clickOn "/") rfl).1⟩

/-- A cycle run with `perform` false never calls `performAction`. -/
theorem navigate_false_no_action (nav : DomNavigator ρ σ ν) (w : World σ)
    (location : Location) (action : Action) (params : Obj) :
    Call.performAction action params ∉ (navigate nav w location false).calls := by
  by_cases hsame : nav.router.isSameDomain location w.location = true
  · cases hroute : resolve nav location with
    | none => simp [navigate, navigateCall, hsame, hroute]
    | some route =>
      cases hbody : (nav.routes route).body with
      | none => simp [navigate, navigateCall, hsame, hroute, hbody]
      | some body =>
        simp [navigate, navigateCall, hsame, hroute, hbody, settle, thenCallback]
  · simp only [Bool.not_eq_true] at hsame
    simp [navigate, navigateCall, hsame]

/-- C7: with a Context configured, `start` on a page without listeners first calls
`context.fromObject` with the global payload, once, and only then installs the
popstate, DOMContentLoaded and click handlers, leaving the Context in the rehydrated
state; a DOMContentLoaded event then runs exactly `navigate(location, false)`, a cycle
that never calls `performAction` whatever the route, and a popstate event runs exactly
`navigate(location, true)`. -/
theorem start_rehydrates_first (nav : DomNavigator ρ σ ν) (w : World σ)
    (context : ContextOps σ) (hctx : nav.context = some context)
    (hfresh : w.listeners = []) :
    (start nav w).calls
      = [.fromObject w.payload, .setOnpopstate, .addEventListener "DOMContentLoaded",
          .addEventListener "click"] ∧
    (start nav w).world.ctx = context.fromObject w.payload w.ctx ∧
    (∀ event : Event, event.type = "DOMContentLoaded" →
      (dispatch nav (start nav w).world event).value
        = [⟨w.location, false,
            (navigateCall nav (start nav w).world w.location false).value⟩]) ∧
    (∀ (w1 : World σ) (location : Location) (action : Action) (params : Obj),
      Call.performAction action params ∉ (navigate nav w1 location false).calls) ∧
    (∀ event : Event, event.type = "popstate" →
      (dispatch nav (start nav w).world event).value
        = [⟨w.location, true,
            (navigateCall nav (start nav w).world w.location true).value⟩]) := by
  obtain ⟨hl, hp, hloc⟩ := start_world nav w
  refine ⟨?_, ?_, ?_, ?_, ?_⟩
  · simp [start, hctx]
  · simp [start, hctx]
  · intro event htype
    simp [dispatch, handlersFor, htype, hl, hloc, hfresh, runHandlers, runHandler]
  · intro w1 location action params
    exact navigate_false_no_action nav w1 location action params
  · intro event htype
    simp [dispatch, handlersFor, htype, hl, hp, hloc, hfresh, runHandlers, runHandler]

/-- Witness of C7: the example page, whose payload sets the counter to 5. -/
theorem start_rehydrates_first_witness :
    (start exampleNav exampleWorld).world.ctx = 5 ∧
    (dispatch exampleNav (start exampleNav exampleWorld).world readyEvent).value
      = [⟨"http://app.example/", false, .promise 0 none⟩] := by
  have h := start_rehydrates_first exampleNav exampleWorld exampleContext rfl rfl
  refine ⟨h.2.1, ?_⟩
  rw [h.2.2.1 readyEvent rfl]
  decide

end NavigatorTheorems

section RouterTheorems

variable {ν : Type}

/-- Reading a property after a write. -/
theorem Obj.get_set (o : Obj) (k k' : String) (v : JsVal) :
    (o.set k v).get k' = if k = k' then some v else o.get k' := by
  induction o with
  | nil => simp [Obj.set, Obj.get]
  | cons p rest ih =>
    obtain ⟨k0, v0⟩ := p
    by_cases h0 : k0 = k
    · subst h0
      by_cases h1 : k0 = k' <;> simp [Obj.set, Obj.get, h1]
    · by_cases h1 : k0 = k'
      · subst h1
        have h2 : ¬ k = k0 := fun h => h0 h.symm
        simp [Obj.set, Obj.get, h0, h2]
      · simp [Obj.set, Obj.get, h0, h1, ih]

/-- A property is absent exactly when its key is not listed by `Object.keys`. -/
theorem Obj.get_eq_none_iff (o : Obj) (k : String) : o.get k = none ↔ k ∉ o.keys := by
  induction o with
  | nil => simp [Obj.get, Obj.keys]
  | cons p rest ih =>
    obtain ⟨k0, v0⟩ := p
    by_cases h0 : k0 = k
    · simp [Obj.get, Obj.keys, h0]
    · have h1 : ¬ k = k0 := fun h => h0 h.symm
      simpa [Obj.get, Obj.keys, h0, h1] using ih

/-- A write does not allocate. -/
theorem Heap.length_write (h : Heap) (r : Ref) (k : String) (v : JsVal) :
    (h.write r k v).length = h.length := by
  simp [Heap.write]

/-- Reading an object after a write to an allocated object. -/
theorem Heap.read_write (h : Heap) (r r' : Ref) (k : String) (v : JsVal)
    (hr : r < h.length) :
    (h.write r k v).read r' = if r = r' then (h.read r).set k v else h.read r' := by
  unfold Heap.write Heap.read
  rw [List.getElem?_set]
  by_cases h0 : r = r'
  · subst h0
    simp [hr]
  · simp [h0]

/-- The copying loop of `util._extend` over a key list: it allocates nothing, leaves
every object other than `origin` as it was, and sets on `origin` exactly the listed
keys, each to the value read from `add`. -/
theorem extend_loop (origin add : Ref) (hne : add ≠ origin) (ks : List String) :
    ∀ h : Heap, origin < h.length →
      (ks.foldr (fun k h' => Heap.write h' origin k (((Heap.read h' add).get k).getD .undefined))
          h).length = h.length ∧
      (∀ r, r ≠ origin →
        Heap.read (ks.foldr
          (fun k h' => Heap.write h' origin k (((Heap.read h' add).get k).getD .undefined)) h) r
          = Heap.read h r) ∧
      (∀ k, (Heap.read (ks.foldr
          (fun k h' => Heap.write h' origin k (((Heap.read h' add).get k).getD .undefined)) h)
            origin).get k
          = if k ∈ ks then some (((Heap.read h add).get k).getD .undefined)
            else (Heap.read h origin).get k) := by
  induction ks with
  | nil => intro h _; simp
  | cons k0 rest ih =>
    intro h horigin
    obtain ⟨hlen, hother, hget⟩ := ih h horigin
    have horigin2 : origin < (rest.foldr (fun k h' =>
        Heap.write h' origin k (((Heap.read h' add).get k).getD .undefined)) h).length := by
      rw [hlen]; exact horigin
    refine ⟨?_, ?_, ?_⟩
    · simp only [List.foldr_cons, Heap.length_write, hlen]
    · intro r hr
      simp only [List.foldr_cons]
      rw [Heap.read_write _ _ _ _ _ horigin2]
      have h1 : ¬ origin = r := fun h => hr h.symm
      simp [h1, hother r hr]
    · intro k
      simp only [List.foldr_cons]
      rw [Heap.read_write _ _ _ _ _ horigin2]
      simp only [if_true, Obj.get_set, hother add hne, hget k, List.mem_cons]
      by_cases h0 : k0 = k
      · subst h0
        simp
      · have h1 : ¬ k = k0 := fun h => h0 h.symm
        simp [h0, h1]

/-- Function `util._extend` on a heap: it allocates nothing, leaves every object other
than `origin` as it was, and afterwards `origin` has the value of `add` for every key
of `add` and its former value for every other key. -/
theorem utilExtend_spec (h : Heap) (origin : Ref) (add : Option Ref)
    (horigin : origin < h.length) (hne : ∀ r, add = some r → r ≠ origin) :
    (utilExtend h origin add).length = h.length ∧
    (∀ r, r ≠ origin → (utilExtend h origin add).read r = h.read r) ∧
    (∀ k, ((utilExtend h origin add).read origin).get k
      = match (objectAt h add).get k with
        | some v => some v
        | none => (h.read origin).get k) := by
  cases add with
  | none => simp [utilExtend, objectAt, Obj.get]
  | some a =>
    obtain ⟨hlen, hother, hget⟩ :=
      extend_loop origin a (hne a rfl) (Obj.keys (h.read a)) h horigin
    refine ⟨hlen, hother, ?_⟩
    intro k
    simp only [utilExtend, objectAt, hget k]
    cases hk : (h.read a).get k with
    | none =>
      have := (Obj.get_eq_none_iff (h.read a) k).1 hk
      simp [this]
    | some v =>
      have : k ∈ Obj.keys (h.read a) := by
        by_contra hc
        have := (Obj.get_eq_none_iff (h.read a) k).2 hc
        simp [hk] at this
      simp [this]

/-- Allocation keeps every allocated object and adds an empty one. -/
theorem Heap.read_alloc (h : Heap) :
    (∀ r, r < h.length → Heap.read h.alloc.1 r = h.read r) ∧
    Heap.read h.alloc.1 h.alloc.2 = [] ∧ h.alloc.2 = h.length ∧
    h.alloc.1.length = h.length + 1 := by
  refine ⟨?_, ?_, rfl, ?_⟩
  · intro r hr
    simp [Heap.alloc, Heap.read, List.getElem?_append_left hr]
  · simp [Heap.alloc, Heap.read]
  · simp [Heap.alloc]

/-- C9: `getComponent` returns `null` and touches nothing when `getRoute` finds no
route. Otherwise, the props and the params of the route being allocated objects or
non-objects, it returns `App` applied to the path of the location, `routeInfo` and the
config, where for every key `routeInfo` holds the value of the path parameters when
they have the key, else the value of the declared props when they have it, else
nothing; and every object that existed before the call, the declared props among
them, is unchanged. -/
theorem getComponent_merges (self : Router ν) (h : Heap) (location : Location)
    (options : Option Obj) :
    (self.getRoute location options = none →
      self.getComponent h location options = (h, none)) ∧
    (∀ route, self.getRoute location options = some route →
      (∀ r, route.config.props = some r → r < h.length) →
      (∀ r, route.params = some r → r < h.length) →
      ∃ routeInfo : Obj,
        (self.getComponent h location options).2
          = some (self.App ⟨self.getPath location, routeInfo, self.config⟩) ∧
        (∀ k, routeInfo.get k
          = match (objectAt h route.params).get k with
            | some v => some v
            | none => (objectAt h route.config.props).get k) ∧
        (∀ r, r < h.length → Heap.read (self.getComponent h location options).1 r = h.read r)) := by
  constructor
  · intro hnone
    simp [Router.getComponent, hnone]
  · intro route hroute hprops hparams
    obtain ⟨hold, hnew, hrefEq, hlenA⟩ := Heap.read_alloc h
    have hlt : h.alloc.2 < h.alloc.1.length := by
      rw [hrefEq, hlenA]; exact Nat.lt_succ_self _
    have hne1 : ∀ r, route.config.props = some r → r ≠ h.alloc.2 := by
      intro r hr heq
      have hlt0 := hprops r hr
      rw [heq, hrefEq] at hlt0
      exact Nat.lt_irrefl _ hlt0
    have hne2 : ∀ r, route.params = some r → r ≠ h.alloc.2 := by
      intro r hr heq
      have hlt0 := hparams r hr
      rw [heq, hrefEq] at hlt0
      exact Nat.lt_irrefl _ hlt0
    obtain ⟨hlen1, hother1, hget1⟩ :=
      utilExtend_spec h.alloc.1 h.alloc.2 route.config.props hlt hne1
    have hlt1 : h.alloc.2 < (utilExtend h.alloc.1 h.alloc.2 route.config.props).length := by
      rw [hlen1]; exact hlt
    obtain ⟨_, hother2, hget2⟩ :=
      utilExtend_spec (utilExtend h.alloc.1 h.alloc.2 route.config.props) h.alloc.2
        route.params hlt1 hne2
    have hobj1 : objectAt h.alloc.1 route.config.props = objectAt h route.config.props := by
      cases hp : route.config.props with
      | none => rfl
      | some r => simp only [objectAt]; exact hold r (hprops r hp)
    have hobj2 : objectAt (utilExtend h.alloc.1 h.alloc.2 route.config.props) route.params
        = objectAt h route.params := by
      cases hp : route.params with
      | none => rfl
      | some r =>
        simp only [objectAt]
        rw [hother1 r (hne2 r hp)]
        exact hold r (hparams r hp)
    refine ⟨Heap.read (utilExtend (utilExtend h.alloc.1 h.alloc.2 route.config.props)
      h.alloc.2 route.params) h.alloc.2, ?_, ?_, ?_⟩
    · simp [Router.getComponent, hroute]
    · intro k
      rw [hget2 k, hobj2, hget1 k, hobj1, hnew]
      cases (objectAt h route.params).get k with
      | some v => rfl
      | none => cases (objectAt h route.config.props).get k <;> simp [Obj.get]
    · intro r hr
      have hne : r ≠ h.alloc.2 := by
        intro heq
        rw [heq, hrefEq] at hr
        exact Nat.lt_irrefl _ hr
      simp only [Router.getComponent, hroute]
      rw [hother2 r hne, hother1 r hne]
      exact hold r hr

/-- Witness of C9: `/users/42` in the example router; `id` comes from the path
parameters, `section` from the declared props, which still hold `id` 0 afterwards. -/
theorem getComponent_merges_witness :
    exampleRouterJs.getComponent exampleHeap "/users/42" none
      = (exampleHeap ++ [[("id", .string "42"), ("section", .string "profile")]],
          some ⟨some "/users/42", [("id", .string "42"), ("section", .string "profile")],
            [("env", .string "test")]⟩) ∧
    ∃ routeInfo : Obj,
      (exampleRouterJs.getComponent exampleHeap "/users/42" none).2
        = some (exampleRouterJs.App
            ⟨exampleRouterJs.getPath "/users/42", routeInfo, exampleRouterJs.config⟩) ∧
      (∀ k, routeInfo.get k
        = match (objectAt exampleHeap (some 1)).get k with
          | some v => some v
          | none => (objectAt exampleHeap (some 0)).get k) ∧
      (∀ r, r < exampleHeap.length →
        Heap.read (exampleRouterJs.getComponent exampleHeap "/users/42" none).1 r
          = exampleHeap.read r) :=
  ⟨by decide,
    (getComponent_merges exampleRouterJs exampleHeap "/users/42" none).2 ⟨some 1, ⟨some 0⟩⟩
      (by decide) (fun r hr => by cases hr; decide) (fun r hr => by cases hr; decide)⟩

end RouterTheorems

end LittlestIsomorph
